import Mathlib

/-!
Shallow embedding of the structural-type-aware matrix algebra core of the
FLAMES library (src/core.hpp) and verification of its specification claims.

Modelling conventions:
* `MatType` (the 9-variant C++ enum) becomes the inductive `Flames.MatTypeE`.
* Element type `T` is embedded as `ℚ`; a matrix's compact buffer `_data` is a
  total function `Nat → ℚ` (reads beyond the compact size model whatever the
  underlying memory holds and are never relied upon by in-range operations).
* `size_t` arithmetic in index formulas is `Nat` arithmetic; every formula is
  only evaluated on the branch where the C++ expression does not underflow,
  where truncated `Nat` subtraction agrees with `size_t`.
* Runtime `assert`s guarding element accesses and iteration counts are
  modelled as observable failures (`Option`, `none` = assertion fires), which
  is the debug/simulation build the library documents as its validation gate.
  The one exception is `Mat::read`, host-only I/O code whose contract is its
  boolean return value: there the `assert` on the complex branch immediately
  precedes an explicit `return false` and is modelled with assertions
  compiled out.
-/

namespace Flames

/-- Matrix type for storage: the 9-variant `MatType` enum of src/core.hpp. -/
inductive MatTypeE where
  | NORMAL
  | DIAGONAL
  | SCALAR
  | UPPER
  | LOWER
  | SUPPER
  | SLOWER
  | SYM
  | ASYM
deriving DecidableEq, Repr, Fintype

open MatTypeE

/-- Summation type of two matrices: `sumType` from src/core.hpp (lines 228-263),
translated branch by branch from the C++ if-else chain. -/
def sumType (type1 type2 : MatTypeE) : MatTypeE :=
  if type1 = type2 then type1
  else if (type1 = DIAGONAL ∧ type2 = SCALAR) ∨ (type1 = SCALAR ∧ type2 = DIAGONAL) then DIAGONAL
  else if (type1 = DIAGONAL ∧ type2 = UPPER) ∨ (type1 = UPPER ∧ type2 = DIAGONAL) then UPPER
  else if (type1 = DIAGONAL ∧ type2 = LOWER) ∨ (type1 = LOWER ∧ type2 = DIAGONAL) then LOWER
  else if (type1 = DIAGONAL ∧ type2 = SUPPER) ∨ (type1 = SUPPER ∧ type2 = DIAGONAL) then UPPER
  else if (type1 = DIAGONAL ∧ type2 = SLOWER) ∨ (type1 = SLOWER ∧ type2 = DIAGONAL) then LOWER
  else if (type1 = SCALAR ∧ type2 = SUPPER) ∨ (type1 = SUPPER ∧ type2 = SCALAR) then UPPER
  else if (type1 = SCALAR ∧ type2 = SLOWER) ∨ (type1 = SLOWER ∧ type2 = SCALAR) then LOWER
  else if (type1 = SUPPER ∧ type2 = UPPER) ∨ (type1 = UPPER ∧ type2 = SUPPER) then UPPER
  else if (type1 = SLOWER ∧ type2 = LOWER) ∨ (type1 = LOWER ∧ type2 = SLOWER) then LOWER
  else if (type1 = DIAGONAL ∧ type2 = SYM) ∨ (type1 = SYM ∧ type2 = DIAGONAL) then SYM
  else if (type1 = SCALAR ∧ type2 = SYM) ∨ (type1 = SYM ∧ type2 = SCALAR) then SYM
  else NORMAL

/-- Multiplication type of two matrices: `mulType` from src/core.hpp
(lines 275-294). The first C++ branch (`type1 == type2` returning `type1`
only when the shared type is neither SYM nor ASYM, otherwise falling through)
is translated as the first conditional. -/
def mulType (type1 type2 : MatTypeE) (n_rows comm n_cols : Nat) : MatTypeE :=
  if n_rows = comm ∧ comm = n_cols then
    if type1 = type2 ∧ type1 ≠ SYM ∧ type1 ≠ ASYM then type1
    else if type1 = SCALAR then type2
    else if type2 = SCALAR then type1
    else if type1 = DIAGONAL ∧ (type2 = SUPPER ∨ type2 = UPPER ∨ type2 = SLOWER ∨ type2 = LOWER)
      then type2
    else if type2 = DIAGONAL ∧ (type1 = SUPPER ∨ type1 = UPPER ∨ type1 = SLOWER ∨ type1 = LOWER)
      then type1
    else if type1 = SUPPER ∧ type2 = UPPER then type1
    else if type1 = SLOWER ∧ type2 = LOWER then type1
    else if type1 = UPPER ∧ type2 = SUPPER then type2
    else if type1 = LOWER ∧ type2 = SLOWER then type2
    else NORMAL
  else NORMAL

/-- Transpose type of a matrix: `tType` from src/core.hpp (lines 302-308). -/
def tType (type : MatTypeE) : MatTypeE :=
  if type = SUPPER then SLOWER
  else if type = SLOWER then SUPPER
  else if type = UPPER then LOWER
  else if type = LOWER then UPPER
  else type

/-- Compact storage size: `Mat::size()` from src/core.hpp (lines 840-848),
a chain of conditional expressions whose final fallback covers
UPPER, LOWER and SYM. -/
def size (type : MatTypeE) (n_rows n_cols : Nat) : Nat :=
  if type = NORMAL then n_rows * n_cols
  else if type = DIAGONAL then n_rows
  else if type = SCALAR then 1
  else if type = SUPPER then (n_rows - 1) * n_rows / 2
  else if type = SLOWER then (n_rows - 1) * n_rows / 2
  else if type = ASYM then (n_rows - 1) * n_rows / 2
  else (1 + n_rows) * n_rows / 2

/-- Read-only element access: the const `Mat::operator()(r, c)` of
src/core.hpp (lines 885-920), branch by branch. The two bounds asserts
(`r < n_rows`, `c < n_cols`) are a precondition of every use below; checked
access is `matReadChk`. -/
def matRead (type : MatTypeE) (n_rows n_cols : Nat) (data : Nat → ℚ) (r c : Nat) : ℚ :=
  match type with
  | NORMAL => data (r * n_cols + c)
  | DIAGONAL => if r = c then data r else 0
  | SCALAR => if r = c then data 0 else 0
  | UPPER => if r ≤ c then data ((2 * n_cols + 1 - r) * r / 2 + c - r) else 0
  | LOWER => if r ≥ c then data ((1 + r) * r / 2 + c) else 0
  | SUPPER => if r < c then data ((2 * n_cols + 1 - r) * r / 2 + c - 1 - 2 * r) else 0
  | SLOWER => if r > c then data ((1 + r) * r / 2 + c - r) else 0
  | SYM =>
      if r ≤ c then data ((2 * n_cols + 1 - r) * r / 2 + c - r)
      else data ((2 * n_cols + 1 - c) * c / 2 + r - c)
  | ASYM =>
      if r < c then data ((2 * n_cols + 1 - r) * r / 2 + c - 1 - 2 * r)
      else if r > c then -data ((2 * n_cols + 1 - c) * c / 2 + r - 1 - 2 * c)
      else 0

/-- Read-only element access with the two bounds assertions of the const
`Mat::operator()` made observable. -/
def matReadChk (type : MatTypeE) (n_rows n_cols : Nat) (data : Nat → ℚ) (r c : Nat) :
    Option ℚ :=
  if r < n_rows ∧ c < n_cols then some (matRead type n_rows n_cols data r c) else none

/-- Pointwise update of a compact buffer at one index. -/
def updAt (data : Nat → ℚ) (i : Nat) (v : ℚ) : Nat → ℚ :=
  fun j => if j = i then v else data j

/-- Writable element access: the mutable `Mat::operator()(r, c)` of
src/core.hpp (lines 929-969) combined with storing value `v` through the
returned reference. `none` models a fired assertion (bounds, or "This
element cannot be modified"). Note the ASYM lower-triangle branch stores
`v` into the mirrored upper-triangle slot WITHOUT a sign flip: the source
carries the comment "ATTENTION This part needs to be perfected, missing a
minus sign." -/
def matWrite (type : MatTypeE) (n_rows n_cols : Nat) (data : Nat → ℚ) (r c : Nat) (v : ℚ) :
    Option (Nat → ℚ) :=
  if r < n_rows ∧ c < n_cols then
    match type with
    | NORMAL => some (updAt data (r * n_cols + c) v)
    | DIAGONAL => if r = c then some (updAt data r v) else none
    | SCALAR => none
    | UPPER => if r ≤ c then some (updAt data ((2 * n_cols + 1 - r) * r / 2 + c - r) v) else none
    | LOWER => if r ≥ c then some (updAt data ((1 + r) * r / 2 + c) v) else none
    | SUPPER =>
        if r < c then some (updAt data ((2 * n_cols + 1 - r) * r / 2 + c - 1 - 2 * r) v) else none
    | SLOWER => if r > c then some (updAt data ((1 + r) * r / 2 + c - r) v) else none
    | SYM =>
        if r ≤ c then some (updAt data ((2 * n_cols + 1 - r) * r / 2 + c - r) v)
        else some (updAt data ((2 * n_cols + 1 - c) * c / 2 + r - c) v)
    | ASYM =>
        if r < c then some (updAt data ((2 * n_cols + 1 - r) * r / 2 + c - 1 - 2 * r) v)
        else if r > c then some (updAt data ((2 * n_cols + 1 - c) * c / 2 + r - 1 - 2 * c) v)
        else none
  else none

/-- The index of the compact storage slot that the const `Mat::operator()`
reads, or `none` when the branch returns the constant 0. This restates the
index expressions of `matRead` for index-level reasoning; the agreement is
proved in `matRead_eq_storedIdx` below. -/
def storedIdx (type : MatTypeE) (n_cols r c : Nat) : Option Nat :=
  match type with
  | NORMAL => some (r * n_cols + c)
  | DIAGONAL => if r = c then some r else none
  | SCALAR => if r = c then some 0 else none
  | UPPER => if r ≤ c then some ((2 * n_cols + 1 - r) * r / 2 + c - r) else none
  | LOWER => if r ≥ c then some ((1 + r) * r / 2 + c) else none
  | SUPPER => if r < c then some ((2 * n_cols + 1 - r) * r / 2 + c - 1 - 2 * r) else none
  | SLOWER => if r > c then some ((1 + r) * r / 2 + c - r) else none
  | SYM =>
      if r ≤ c then some ((2 * n_cols + 1 - r) * r / 2 + c - r)
      else some ((2 * n_cols + 1 - c) * c / 2 + r - c)
  | ASYM =>
      if r < c then some ((2 * n_cols + 1 - r) * r / 2 + c - 1 - 2 * r)
      else if r > c then some ((2 * n_cols + 1 - c) * c / 2 + r - 1 - 2 * c)
      else none

/-- Whether a logical cell is an independently stored (writable) cell of the
compact layout, per the branch conditions of the element accessors. For SYM
every cell aliases a stored slot; for ASYM the strict lower triangle aliases
a (negated-on-read) stored slot and the diagonal is implied zero. -/
def isStored (type : MatTypeE) (r c : Nat) : Bool :=
  match type with
  | NORMAL => true
  | DIAGONAL => r = c
  | SCALAR => r = c
  | UPPER => r ≤ c
  | LOWER => c ≤ r
  | SUPPER => r < c
  | SLOWER => c < r
  | SYM => true
  | ASYM => r < c

/-- Modelled from the spec: the `CompactSize` table of spec 3 (rows*cols for
NORMAL; rows for DIAGONAL; 1 for SCALAR; rows*(rows+1)/2 for UPPER/LOWER/SYM;
rows*(rows-1)/2 for SUPPER/SLOWER/ASYM), used as the comparison side of the
layout/size claim. -/
def compactSizeSpec (type : MatTypeE) (n_rows n_cols : Nat) : Nat :=
  match type with
  | NORMAL => n_rows * n_cols
  | DIAGONAL => n_rows
  | SCALAR => 1
  | UPPER => n_rows * (n_rows + 1) / 2
  | LOWER => n_rows * (n_rows + 1) / 2
  | SYM => n_rows * (n_rows + 1) / 2
  | SUPPER => n_rows * (n_rows - 1) / 2
  | SLOWER => n_rows * (n_rows - 1) / 2
  | ASYM => n_rows * (n_rows - 1) / 2

/-- Modelled from the spec: the canonical compact order of each structural
type (row-major over the stored cells: full row-major for NORMAL, diagonal
sequence for DIAGONAL, the single slot for SCALAR, row-major upper-triangle
walk for UPPER/SYM, row-major lower-triangle walk for LOWER, and the strict
variants for SUPPER/SLOWER/ASYM). -/
def canonicalCells (type : MatTypeE) (n_rows n_cols : Nat) : List (Nat × Nat) :=
  match type with
  | NORMAL =>
      (List.range n_rows).flatMap fun r => (List.range n_cols).map fun c => (r, c)
  | DIAGONAL => (List.range n_rows).map fun i => (i, i)
  | SCALAR => [(0, 0)]
  | UPPER =>
      (List.range n_rows).flatMap fun r =>
        ((List.range n_cols).filter fun c => decide (r ≤ c)).map fun c => (r, c)
  | SYM =>
      (List.range n_rows).flatMap fun r =>
        ((List.range n_cols).filter fun c => decide (r ≤ c)).map fun c => (r, c)
  | LOWER =>
      (List.range n_rows).flatMap fun r =>
        ((List.range n_cols).filter fun c => decide (c ≤ r)).map fun c => (r, c)
  | SUPPER =>
      (List.range n_rows).flatMap fun r =>
        ((List.range n_cols).filter fun c => decide (r < c)).map fun c => (r, c)
  | ASYM =>
      (List.range n_rows).flatMap fun r =>
        ((List.range n_cols).filter fun c => decide (r < c)).map fun c => (r, c)
  | SLOWER =>
      (List.range n_rows).flatMap fun r =>
        ((List.range n_cols).filter fun c => decide (c < r)).map fun c => (r, c)

/-- Header validation of `Mat::read` from src/core.hpp (lines 989-1030):
the dimension line check, the per-type type-name token checks (note the
source has NO check for SLOWER), and the complex-number rejection. The
value-parsing loop over a well-formed comma-separated body is elided; `true`
means the function goes on to parse and returns true. The assert on the
complex branch immediately precedes `return false` and is modelled with
assertions compiled out. -/
def readCheck (type : MatTypeE) (n_rows n_cols in_rows in_cols : Nat)
    (complex_real mat_type : String) : Bool :=
  if n_rows ≠ in_rows ∨ n_cols ≠ in_cols then false
  else if type = NORMAL ∧ mat_type ≠ "normal" then false
  else if type = DIAGONAL ∧ mat_type ≠ "diagonal" then false
  else if type = SCALAR ∧ mat_type ≠ "scalar" then false
  else if type = UPPER ∧ mat_type ≠ "upper" then false
  else if type = LOWER ∧ mat_type ≠ "lower" then false
  else if type = SUPPER ∧ mat_type ≠ "supper" then false
  else if type = SYM ∧ mat_type ≠ "sym" then false
  else if type = ASYM ∧ mat_type ≠ "asym" then false
  else if complex_real = "complex" then false
  else true

/-- Modelled from the spec: the type-name token of each structural type as
listed in spec 6 (`normal|diagonal|scalar|upper|lower|supper|sym|asym`,
extended by the natural token for SLOWER, for which the source checks
nothing). -/
def typeNameToken (type : MatTypeE) : String :=
  match type with
  | NORMAL => "normal"
  | DIAGONAL => "diagonal"
  | SCALAR => "scalar"
  | UPPER => "upper"
  | LOWER => "lower"
  | SUPPER => "supper"
  | SLOWER => "slower"
  | SYM => "sym"
  | ASYM => "asym"

/-- The reference-taking `Mat::invINSA` from src/core.hpp (lines 6690-6696):
after the `iter >= 1` assertion its body is empty and it returns `*this`
(the destination `dest`) unchanged, never touching `mat` or `beta`. -/
def invINSA (dest : Nat → ℚ) (mat : Nat → ℚ) (iter : Nat) (beta : ℚ) : Option (Nat → ℚ) :=
  if 1 ≤ iter then some dest else none

/-- The element read `MatViewOffDiag::operator()(r, c)` from src/core.hpp:
`if (r == c) return T(0);` and then, instead of dispatching on the parent
type (the computed `p_type` is never used), the body is the unconditional
self-call `return (*this)(r, c);`. The recursion is embedded with explicit
fuel; `none` models a call that has not returned within `fuel` unfoldings. -/
def offDiagViewRead (fuel : Nat) (N : Nat) (pdata : Nat → ℚ) (r c : Nat) : Option ℚ :=
  match fuel with
  | 0 => none
  | fuel + 1 => if r = c then some (0 : ℚ) else offDiagViewRead fuel N pdata r c

/-- The loop of the copy-returning `Mat::invDiag()` from src/core.hpp
(lines 6613-6621): it fills a local DIAGONAL matrix with
`mat._data[i] = T(1.0) / _data[i]` for `i < n_rows`, on top of the local's
default-constructed (indeterminate) contents `dflt`. The C++ function then
falls off its end WITHOUT returning this local. -/
def invDiagCopyLocal (n_rows : Nat) (data dflt : Nat → ℚ) : Nat → ℚ :=
  fun i => if i < n_rows then 1 / data i else dflt i

/-- The static result-row index table `r[288]` of the NORMAL/SYM times UPPER
`Mat::mul` specialization (src/core.hpp lines 2168-2209): 36 copies of each
row index 0..7, transcribed literally. -/
def mulUpperTabR : List Nat :=
  [0, 0, 0, 0, 0, 0, 0, 0, 0, 0, 0, 0, 0, 0, 0, 0, 0, 0, 0, 0, 0, 0, 0, 0, 0, 0, 0, 0, 0, 0, 0, 0, 0, 0, 0, 0,
   1, 1, 1, 1, 1, 1, 1, 1, 1, 1, 1, 1, 1, 1, 1, 1, 1, 1, 1, 1, 1, 1, 1, 1, 1, 1, 1, 1, 1, 1, 1, 1, 1, 1, 1, 1,
   2, 2, 2, 2, 2, 2, 2, 2, 2, 2, 2, 2, 2, 2, 2, 2, 2, 2, 2, 2, 2, 2, 2, 2, 2, 2, 2, 2, 2, 2, 2, 2, 2, 2, 2, 2,
   3, 3, 3, 3, 3, 3, 3, 3, 3, 3, 3, 3, 3, 3, 3, 3, 3, 3, 3, 3, 3, 3, 3, 3, 3, 3, 3, 3, 3, 3, 3, 3, 3, 3, 3, 3,
   4, 4, 4, 4, 4, 4, 4, 4, 4, 4, 4, 4, 4, 4, 4, 4, 4, 4, 4, 4, 4, 4, 4, 4, 4, 4, 4, 4, 4, 4, 4, 4, 4, 4, 4, 4,
   5, 5, 5, 5, 5, 5, 5, 5, 5, 5, 5, 5, 5, 5, 5, 5, 5, 5, 5, 5, 5, 5, 5, 5, 5, 5, 5, 5, 5, 5, 5, 5, 5, 5, 5, 5,
   6, 6, 6, 6, 6, 6, 6, 6, 6, 6, 6, 6, 6, 6, 6, 6, 6, 6, 6, 6, 6, 6, 6, 6, 6, 6, 6, 6, 6, 6, 6, 6, 6, 6, 6, 6,
   7, 7, 7, 7, 7, 7, 7, 7, 7, 7, 7, 7, 7, 7, 7, 7, 7, 7, 7, 7, 7, 7, 7, 7, 7, 7, 7, 7, 7, 7, 7, 7, 7, 7, 7, 7]

/-- The static contraction index table `i[288]` of the NORMAL/SYM times UPPER
`Mat::mul` specialization, transcribed literally: eight repetitions of the
8-column upper-triangle contraction walk. -/
def mulUpperTabI : List Nat :=
  [0, 0, 1, 0, 1, 2, 0, 1, 2, 3, 0, 1, 2, 3, 4, 0, 1, 2, 3, 4, 5, 0, 1, 2, 3, 4, 5, 6, 0, 1, 2, 3, 4, 5, 6, 7,
   0, 0, 1, 0, 1, 2, 0, 1, 2, 3, 0, 1, 2, 3, 4, 0, 1, 2, 3, 4, 5, 0, 1, 2, 3, 4, 5, 6, 0, 1, 2, 3, 4, 5, 6, 7,
   0, 0, 1, 0, 1, 2, 0, 1, 2, 3, 0, 1, 2, 3, 4, 0, 1, 2, 3, 4, 5, 0, 1, 2, 3, 4, 5, 6, 0, 1, 2, 3, 4, 5, 6, 7,
   0, 0, 1, 0, 1, 2, 0, 1, 2, 3, 0, 1, 2, 3, 4, 0, 1, 2, 3, 4, 5, 0, 1, 2, 3, 4, 5, 6, 0, 1, 2, 3, 4, 5, 6, 7,
   0, 0, 1, 0, 1, 2, 0, 1, 2, 3, 0, 1, 2, 3, 4, 0, 1, 2, 3, 4, 5, 0, 1, 2, 3, 4, 5, 6, 0, 1, 2, 3, 4, 5, 6, 7,
   0, 0, 1, 0, 1, 2, 0, 1, 2, 3, 0, 1, 2, 3, 4, 0, 1, 2, 3, 4, 5, 0, 1, 2, 3, 4, 5, 6, 0, 1, 2, 3, 4, 5, 6, 7,
   0, 0, 1, 0, 1, 2, 0, 1, 2, 3, 0, 1, 2, 3, 4, 0, 1, 2, 3, 4, 5, 0, 1, 2, 3, 4, 5, 6, 0, 1, 2, 3, 4, 5, 6, 7,
   0, 0, 1, 0, 1, 2, 0, 1, 2, 3, 0, 1, 2, 3, 4, 0, 1, 2, 3, 4, 5, 0, 1, 2, 3, 4, 5, 6, 0, 1, 2, 3, 4, 5, 6, 7]

/-- The static result-column index table `c[288]` of the NORMAL/SYM times
UPPER `Mat::mul` specialization, transcribed literally: eight repetitions of
the 8-column result-column walk (column c repeated c+1 times). -/
def mulUpperTabC : List Nat :=
  [0, 1, 1, 2, 2, 2, 3, 3, 3, 3, 4, 4, 4, 4, 4, 5, 5, 5, 5, 5, 5, 6, 6, 6, 6, 6, 6, 6, 7, 7, 7, 7, 7, 7, 7, 7,
   0, 1, 1, 2, 2, 2, 3, 3, 3, 3, 4, 4, 4, 4, 4, 5, 5, 5, 5, 5, 5, 6, 6, 6, 6, 6, 6, 6, 7, 7, 7, 7, 7, 7, 7, 7,
   0, 1, 1, 2, 2, 2, 3, 3, 3, 3, 4, 4, 4, 4, 4, 5, 5, 5, 5, 5, 5, 6, 6, 6, 6, 6, 6, 6, 7, 7, 7, 7, 7, 7, 7, 7,
   0, 1, 1, 2, 2, 2, 3, 3, 3, 3, 4, 4, 4, 4, 4, 5, 5, 5, 5, 5, 5, 6, 6, 6, 6, 6, 6, 6, 7, 7, 7, 7, 7, 7, 7, 7,
   0, 1, 1, 2, 2, 2, 3, 3, 3, 3, 4, 4, 4, 4, 4, 5, 5, 5, 5, 5, 5, 6, 6, 6, 6, 6, 6, 6, 7, 7, 7, 7, 7, 7, 7, 7,
   0, 1, 1, 2, 2, 2, 3, 3, 3, 3, 4, 4, 4, 4, 4, 5, 5, 5, 5, 5, 5, 6, 6, 6, 6, 6, 6, 6, 7, 7, 7, 7, 7, 7, 7, 7,
   0, 1, 1, 2, 2, 2, 3, 3, 3, 3, 4, 4, 4, 4, 4, 5, 5, 5, 5, 5, 5, 6, 6, 6, 6, 6, 6, 6, 7, 7, 7, 7, 7, 7, 7, 7,
   0, 1, 1, 2, 2, 2, 3, 3, 3, 3, 4, 4, 4, 4, 4, 5, 5, 5, 5, 5, 5, 6, 6, 6, 6, 6, 6, 6, 7, 7, 7, 7, 7, 7, 7, 7]

/-- One step of the NORMAL/SYM times UPPER table walk, at flat table index
`k`: the optional zero-initialising write `if (i[n] == 0) (*this)(r, c) = 0`
followed by the accumulation `(*this)(r, c) += mat_L(r, i) * mat_R(i, c)`,
with every element access through the (assert-checked) accessors. The
destination is the NORMAL matrix the dispatcher allocates for this pair. -/
def mulNormalUpperStep (n : Nat) (type1 : MatTypeE) (ldata rdata : Nat → ℚ)
    (acc : Option (Nat → ℚ)) (k : Nat) : Option (Nat → ℚ) :=
  match acc with
  | none => none
  | some d =>
      let rk := mulUpperTabR.getD k 0
      let ik := mulUpperTabI.getD k 0
      let ck := mulUpperTabC.getD k 0
      match (if ik = 0 then matWrite NORMAL n n d rk ck 0 else some d) with
      | none => none
      | some d0 =>
          match matReadChk type1 n n ldata rk ik, matReadChk UPPER n n rdata ik ck with
          | some a, some b => matWrite NORMAL n n d0 rk ck (matRead NORMAL n n d0 rk ck + a * b)
          | _, _ => none

/-- The NORMAL/SYM times UPPER `Mat::mul` specialization of src/core.hpp
(lines 2168-2209): the flat loop
`for (n = 0; n != n_rows * n_rows * (n_rows + 1) / 2; n++)` over the three
static index tables, for an `n x n` instantiation with left operand type
`type1` (NORMAL or SYM) and a NORMAL destination initially holding `dest`. -/
def mulNormalUpper (n : Nat) (type1 : MatTypeE) (ldata rdata dest : Nat → ℚ) :
    Option (Nat → ℚ) :=
  (List.range (n * (n * (n + 1) / 2))).foldl (mulNormalUpperStep n type1 ldata rdata) (some dest)

/-- The general dense GEMM `Mat::mul` specialization for NORMAL/SYM pairs
(src/core.hpp lines 1988-2011): loop order `i` (contraction), `r`, `c`, with
`if (i == 0) (*this)(r, c) = T(0)` and accumulation through the checked
accessors, into a NORMAL destination initially holding `dest`. -/
def gemmNormal (n : Nat) (type1 type2 : MatTypeE) (ldata rdata dest : Nat → ℚ) :
    Option (Nat → ℚ) :=
  (List.range n).foldl (fun acci i =>
    (List.range n).foldl (fun accr r =>
      (List.range n).foldl (fun accc c =>
        match accc with
        | none => none
        | some d =>
            match (if i = 0 then matWrite NORMAL n n d r c 0 else some d) with
            | none => none
            | some d0 =>
                match matReadChk type1 n n ldata r i, matReadChk type2 n n rdata i c with
                | some a, some b =>
                    matWrite NORMAL n n d0 r c (matRead NORMAL n n d0 r c + a * b)
                | _, _ => none) accr) acci) (some dest)

/-- The reference-taking transpose `Mat& Mat::t(mat)` of src/core.hpp
(lines 5954-6015), for a square `n x n` destination of structural type
`destType` with buffer `destData`, transposing a source of type `srcType`
with buffer `srcData`. The DIAGONAL/SCALAR/SYM branch is the source's
explicit "do nothing"; the NORMAL branch copies raw buffer slots
(`_data[n_rows*i+j] = mat._data[n_rows*j+i]`, no assertions on raw array
indexing); all triangular branches write through the assert-checked mutable
accessor and read the source through the checked const accessor. -/
def tRef (destType srcType : MatTypeE) (n : Nat) (destData srcData : Nat → ℚ) :
    Option (Nat → ℚ) :=
  match destType with
  | DIAGONAL => some destData
  | SCALAR => some destData
  | SYM => some destData
  | NORMAL =>
      some ((List.range n).foldl (fun di i =>
        (List.range n).foldl (fun dj j =>
          updAt dj (n * i + j) (srcData (n * j + i))) di) destData)
  | UPPER =>
      (List.range n).foldl (fun acc i =>
        ((List.range n).drop i).foldl (fun accj j =>
          match accj with
          | none => none
          | some d =>
              match matReadChk srcType n n srcData j i with
              | none => none
              | some v => matWrite UPPER n n d i j v) acc) (some destData)
  | LOWER =>
      (List.range n).foldl (fun acc i =>
        (List.range (i + 1)).foldl (fun accj j =>
          match accj with
          | none => none
          | some d =>
              match matReadChk srcType n n srcData j i with
              | none => none
              | some v => matWrite LOWER n n d i j v) acc) (some destData)
  | SUPPER =>
      (List.range n).foldl (fun acc i =>
        ((List.range n).drop i).foldl (fun accj j =>
          match accj with
          | none => none
          | some d =>
              match matReadChk srcType n n srcData j i with
              | none => none
              | some v => matWrite SUPPER n n d i j v) acc) (some destData)
  | SLOWER =>
      (List.range n).foldl (fun acc i =>
        ((List.range n).drop i).foldl (fun accj j =>
          match accj with
          | none => none
          | some d =>
              match matReadChk srcType n n srcData j i with
              | none => none
              | some v => matWrite SLOWER n n d i j v) acc) (some destData)
  | ASYM =>
      (List.range n).foldl (fun acc i =>
        ((List.range n).drop (i + 1)).foldl (fun accj j =>
          match accj with
          | none => none
          | some d =>
              match matReadChk srcType n n srcData j i with
              | none => none
              | some v => matWrite ASYM n n d i j v) acc) (some destData)

/-- Whether a structural type is one of the four (strict) triangular types. -/
def isTriangular (type : MatTypeE) : Bool :=
  type = UPPER ∨ type = LOWER ∨ type = SUPPER ∨ type = SLOWER

/-- Modelled from the spec (amended for claim C5): the square-shape closure
table of `mulType`. Same type is preserved except SYM and ASYM (which fall
back to NORMAL); SCALAR absorbs into the other operand's type; DIAGONAL
times a (strict) triangular type gives that triangular type, symmetrically;
SUPPER*UPPER and UPPER*SUPPER give SUPPER; SLOWER*LOWER and LOWER*SLOWER
give SLOWER; everything else falls back to NORMAL. -/
def mulTypeSquareSpec (type1 type2 : MatTypeE) : MatTypeE :=
  if type1 = type2 then (if type1 = SYM ∨ type1 = ASYM then NORMAL else type1)
  else if type1 = SCALAR then type2
  else if type2 = SCALAR then type1
  else if type1 = DIAGONAL ∧ isTriangular type2 then type2
  else if type2 = DIAGONAL ∧ isTriangular type1 then type1
  else if (type1 = SUPPER ∧ type2 = UPPER) ∨ (type1 = UPPER ∧ type2 = SUPPER) then SUPPER
  else if (type1 = SLOWER ∧ type2 = LOWER) ∨ (type1 = LOWER ∧ type2 = SLOWER) then SLOWER
  else NORMAL

/-- Modelled from the spec (amended for claim C6): the unordered-pair rules of
`sumType` beyond the shared-type rule, listed in one orientation. -/
def sumPairRule (a b : MatTypeE) : Option MatTypeE :=
  match a, b with
  | DIAGONAL, SCALAR => some DIAGONAL
  | DIAGONAL, UPPER => some UPPER
  | DIAGONAL, LOWER => some LOWER
  | DIAGONAL, SUPPER => some UPPER
  | DIAGONAL, SLOWER => some LOWER
  | SCALAR, SUPPER => some UPPER
  | SCALAR, SLOWER => some LOWER
  | SUPPER, UPPER => some UPPER
  | SLOWER, LOWER => some LOWER
  | DIAGONAL, SYM => some SYM
  | SCALAR, SYM => some SYM
  | _, _ => none

/-- Modelled from the spec (amended for claim C6): two equal types keep that
type; otherwise the symmetrised pair rules of `sumPairRule` apply; every
remaining pair gives NORMAL. -/
def sumTypeSpecAmended (type1 type2 : MatTypeE) : MatTypeE :=
  if type1 = type2 then type1
  else
    match sumPairRule type1 type2 with
    | some t => t
    | none =>
        match sumPairRule type2 type1 with
        | some t => t
        | none => NORMAL

/-- Concrete NORMAL 2x2 left operand [[1,2],[3,4]] in compact (row-major)
order, used to evaluate the NORMAL times UPPER specialization. -/
def c1L : Nat → ℚ := fun k => [1, 2, 3, 4].getD k 0

/-- Concrete UPPER 2x2 right operand [[5,6],[0,7]] in compact
(upper-triangle-walk) order 5,6,7. -/
def c1R : Nat → ℚ := fun k => [5, 6, 7].getD k 0

/-- Claim C5, counterexample: the claim states that for every type2,
`mulType(DIAGONAL, type2, n, n, n) = type2`, but the source maps
DIAGONAL times SYM to NORMAL, not SYM. -/
theorem mulType_diag_sym_counterexample :
    mulType DIAGONAL SYM 3 3 3 = NORMAL ∧ mulType DIAGONAL SYM 3 3 3 ≠ SYM := by
  decide

/-- Claim C5 (amended): `mulType` returns NORMAL whenever the three
dimensions are not all equal, and on square shapes it realises exactly the
closure table `mulTypeSquareSpec`: same type preserved except SYM/ASYM,
SCALAR absorbed, DIAGONAL absorbed into a (strict) triangular co-operand,
and the strict/non-strict triangular products SUPPER*UPPER, UPPER*SUPPER
(giving SUPPER), SLOWER*LOWER, LOWER*SLOWER (giving SLOWER); all other
square pairs fall back to NORMAL. -/
theorem mulType_spec (type1 type2 : MatTypeE) (n_rows comm n_cols : Nat) :
    (¬(n_rows = comm ∧ comm = n_cols) → mulType type1 type2 n_rows comm n_cols = NORMAL)
    ∧ mulType type1 type2 n_rows n_rows n_rows = mulTypeSquareSpec type1 type2 := by
  constructor
  · intro h
    simp [mulType, h]
  · cases type1 <;> cases type2 <;> simp [mulType, mulTypeSquareSpec, isTriangular]

/-- Claim C5 witness: the theorem applied at a non-square shape and at a
square DIAGONAL times UPPER instance. -/
theorem mulType_spec_witness :
    mulType NORMAL UPPER 2 3 4 = NORMAL ∧ mulType DIAGONAL UPPER 5 5 5 = UPPER := by
  constructor
  · exact (mulType_spec NORMAL UPPER 2 3 4).1 (by decide)
  · rw [(mulType_spec DIAGONAL UPPER 5 5 5).2]
    decide

/-- Claim C6, counterexample: the claim states that SCALAR combined with a
triangular type preserves the triangular type, but the source has no
SCALAR/UPPER rule and falls through to NORMAL. -/
theorem sumType_scalar_upper_counterexample :
    sumType SCALAR UPPER = NORMAL ∧ sumType SCALAR UPPER ≠ UPPER := by
  decide

/-- Claim C6 (amended): `sumType` keeps a shared type; otherwise exactly the
symmetrised pair rules hold (DIAGONAL+SCALAR giving DIAGONAL;
DIAGONAL with any of the four triangular types giving the inclusive
triangle of the same side; SCALAR with a STRICT triangular type giving the
inclusive triangle, while SCALAR with UPPER/LOWER falls to NORMAL;
SUPPER+UPPER giving UPPER and SLOWER+LOWER giving LOWER; DIAGONAL or SCALAR
with SYM giving SYM); every other pair of distinct types gives NORMAL. -/
theorem sumType_spec : ∀ type1 type2 : MatTypeE,
    sumType type1 type2 = sumTypeSpecAmended type1 type2 := by
  decide

/-- Claim C9, counterexample: the claim quantifies over every iteration
count, but at `iter = 0` the reference-taking `invINSA` fails its
`iter >= 1` assertion instead of returning the destination unchanged. -/
theorem invINSA_iter_zero_counterexample :
    invINSA (fun _ => (3 : ℚ)) (fun _ => (7 : ℚ)) 0 2 ≠ some (fun _ => (3 : ℚ)) := by
  simp [invINSA]

/-- Claim C9 (amended): for every destination, argument matrix, beta and
iteration count at least 1, the reference-taking `invINSA` performs no
computation: it returns the destination buffer unchanged and never reads
the argument matrix (the result does not depend on `mat` or `beta`). -/
theorem invINSA_stub (dest mat : Nat → ℚ) (iter : Nat) (beta : ℚ) (h : 1 ≤ iter) :
    invINSA dest mat iter beta = some dest := by
  simp [invINSA, h]

/-- Claim C9 witness: the stub theorem applied at a concrete destination,
matrix, iteration count 3 and beta 2. -/
theorem invINSA_stub_witness :
    invINSA (fun _ => (3 : ℚ)) (fun _ => (7 : ℚ)) 3 2 = some (fun _ => (3 : ℚ)) :=
  invINSA_stub (fun _ => (3 : ℚ)) (fun _ => (7 : ℚ)) 3 2 (by decide)

/-- Claim C7, counterexample: `Mat::read` has type-name checks for eight of
the nine structural types but none for SLOWER, so a SLOWER matrix accepts a
file whose type-name token is "normal" (the claim demands `false`). -/
theorem read_slower_counterexample :
    readCheck SLOWER 2 2 2 2 "real" "normal" = true := by
  decide

/-- Claim C7 (amended): `Mat::read` returns false whenever the dimension
line disagrees with the compile-time shape, whenever the number-kind token
is "complex" (with assertions compiled out; in a debug build the complex
branch first trips its "not currently supported" assertion), and, for every
structural type EXCEPT SLOWER (whose check is missing from the source),
whenever the type-name token differs from the type's name. -/
theorem read_header_spec (type : MatTypeE) (n_rows n_cols in_rows in_cols : Nat)
    (complex_real mat_type : String) :
    (¬(n_rows = in_rows ∧ n_cols = in_cols) →
        readCheck type n_rows n_cols in_rows in_cols complex_real mat_type = false)
    ∧ (type ≠ SLOWER → mat_type ≠ typeNameToken type →
        readCheck type n_rows n_cols in_rows in_cols complex_real mat_type = false)
    ∧ (complex_real = "complex" →
        readCheck type n_rows n_cols in_rows in_cols complex_real mat_type = false) := by
  refine ⟨?_, ?_, ?_⟩
  · intro h
    have h2 : n_rows ≠ in_rows ∨ n_cols ≠ in_cols := by tauto
    simp [readCheck, h2]
  · intro ht hm
    cases type
    case SLOWER => exact absurd rfl ht
    all_goals
      simp only [typeNameToken] at hm
      simp [readCheck, hm]
  · intro hc
    subst hc
    cases type <;> simp [readCheck]

/-- Claim C7 witness: the amended theorem applied to a dimension mismatch,
a type-name mismatch on an UPPER matrix, and a complex-kind file. -/
theorem read_header_spec_witness :
    readCheck UPPER 2 2 3 2 "real" "upper" = false
    ∧ readCheck UPPER 2 2 2 2 "real" "normal" = false
    ∧ readCheck NORMAL 2 2 2 2 "complex" "normal" = false :=
  ⟨(read_header_spec UPPER 2 2 3 2 "real" "upper").1 (by decide),
   (read_header_spec UPPER 2 2 2 2 "real" "normal").2.1 (by decide) (by decide),
   (read_header_spec NORMAL 2 2 2 2 "complex" "normal").2.2 rfl⟩

/-- Claim C1: evaluation of the static-index-table NORMAL times UPPER
`Mat::mul` specialization at the 2x2 instantiation [[1,2],[3,4]] times
[[5,6],[0,7]]. The table walk's fourth entry (r=0, i=0, c=2) drives a write
to `(*this)(0, 2)` and a read of `mat_R(0, 2)`: column index 2 is out of
range for a 2x2 matrix, so the bounds assertion fires (`none`) — while the
general dense GEMM of the same source file produces the correct product
[[5,20],[15,46]]. The tables are laid out for the 8x8 shape only. -/
theorem mul_normal_upper_2x2_asserts :
    mulNormalUpper 2 NORMAL c1L c1R (fun _ => 0) = none
    ∧ (gemmNormal 2 NORMAL UPPER c1L c1R (fun _ => 0)).map
        (fun d => [d 0, d 1, d 2, d 3]) = some [5, 20, 15, 46] := by
  constructor
  · rfl
  · simp only [gemmNormal, show List.range 2 = [0, 1] from rfl, List.foldl,
      matReadChk, matRead, matWrite, updAt, c1L, c1R]
    norm_num [updAt]

/-- Claim C3: evaluation of the mutable `Mat::operator()` write path on an
ASYM 2x2 matrix at the mirrored cell (1, 0). Writing v = 5 stores 5 in the
canonical upper-triangle slot WITHOUT the sign flip (the source's admitted
missing minus sign), so reading the same logical cell (1, 0) back yields
-5, not 5. -/
theorem asym_mirror_write_readback :
    (matWrite ASYM 2 2 (fun _ => 9) 1 0 5).map (fun d => matRead ASYM 2 2 d 1 0)
      = some (-5) := by
  rfl

/-- Claim C4: the off-diagonal element read of `MatViewOffDiag::operator()`
never returns for an off-diagonal cell, at the concrete 2x2 parent
[[10,-2],[1,-8]] (the matrix family of the spec's Newton-Schulz scenario)
and cell (0, 1): the body's r not equal to c branch is an unconditional
self-call, so no amount of fuel produces a value. Consequently `invNSA`'s
first multiplication `(-D_inv) * E`, which reads `E(0, 1)` through this
accessor, never terminates for any matrix with 2 or more rows. -/
theorem offdiag_view_read_diverges :
    ∀ fuel : Nat, offDiagViewRead fuel 2 (fun k => [10, -2, 1, -8].getD k 0) 0 1 = none := by
  intro fuel
  induction fuel with
  | zero => rfl
  | succ n ih => simpa [offDiagViewRead] using ih

/-- Claim C8: evaluation of the reference-taking transpose into a 2x2 SUPPER
destination from its SLOWER transpose source. The SUPPER branch of
`Mat::t(mat)` starts its inner loop at j = i, so its very first write is to
the diagonal cell `(*this)(0, 0)`, which the SUPPER mutable accessor rejects
with the "This element cannot be modified (SUPPER)" assertion: the operation
assert-fails instead of producing the transpose. -/
theorem tRef_supper_asserts :
    tRef SUPPER SLOWER 2 (fun _ => 9) (fun _ => 1) = none := by
  rfl

/-- Claim C10: the loop of the copy-returning `Mat::invDiag()` fills the
local result with the elementwise reciprocals (here of diag(2, 4)), exactly
as the claim describes — but the function then ends without a return
statement, so this computed local is discarded (undefined behaviour in the
caller) instead of being returned. -/
theorem invDiag_copy_local_value :
    invDiagCopyLocal 2 (fun i => if i = 0 then (2 : ℚ) else 4) (fun _ => 0) 0 = 1 / 2
    ∧ invDiagCopyLocal 2 (fun i => if i = 0 then (2 : ℚ) else 4) (fun _ => 0) 1 = 1 / 4 := by
  constructor <;> norm_num [invDiagCopyLocal]

/-- The const accessor reads exactly the slot named by `storedIdx`, negated
precisely for ASYM strict-lower cells, and 0 where no slot is named. -/
theorem matRead_eq_storedIdx (t : MatTypeE) (nr nc : Nat) (data : Nat → ℚ) (r c : Nat) :
    matRead t nr nc data r c =
      (match storedIdx t nc r c with
       | some i => if t = ASYM ∧ c < r then -data i else data i
       | none => 0) := by
  cases t <;> simp only [matRead, storedIdx] <;> split_ifs <;> simp_all <;> omega

/-- Reading a cell whose stored slot is `k` returns the buffer value at `k`
whenever the cell is not an ASYM strict-lower (negated) alias. -/
theorem matRead_of_storedIdx (t : MatTypeE) (nr nc : Nat) (data : Nat → ℚ) (r c k : Nat)
    (hidx : storedIdx t nc r c = some k) (hori : ¬(t = ASYM ∧ c < r)) :
    matRead t nr nc data r c = data k := by
  rw [matRead_eq_storedIdx, hidx]
  exact if_neg hori

/-- Structurally implied-zero cells of the non-mirroring types read as 0. -/
theorem matRead_zero_of_not_stored (t : MatTypeE) (nr nc : Nat) (data : Nat → ℚ) (r c : Nat)
    (h : isStored t r c = false) (hsym : t ≠ SYM) (hasym : t ≠ ASYM) :
    matRead t nr nc data r c = 0 := by
  cases t <;> simp_all [isStored, matRead]

/-- A SYM below-diagonal cell reads the mirrored upper-triangle value. -/
theorem matRead_sym_mirror (nr nc : Nat) (data : Nat → ℚ) (r c : Nat) (h : c < r) :
    matRead SYM nr nc data r c = matRead SYM nr nc data c r := by
  have h1 : ¬ r ≤ c := by omega
  have h2 : c ≤ r := by omega
  simp [matRead, h1, h2]

/-- An ASYM below-diagonal cell reads the negated mirrored value. -/
theorem matRead_asym_mirror (nr nc : Nat) (data : Nat → ℚ) (r c : Nat) (h : c < r) :
    matRead ASYM nr nc data r c = - matRead ASYM nr nc data c r := by
  have h1 : ¬ r < c := by omega
  simp [matRead, h1, h]

/-- An ASYM diagonal cell reads as 0. -/
theorem matRead_asym_diag (nr nc : Nat) (data : Nat → ℚ) (r : Nat) :
    matRead ASYM nr nc data r r = 0 := by
  simp [matRead]

set_option maxHeartbeats 2000000 in
set_option synthInstance.maxSize 4000 in
set_option synthInstance.maxHeartbeats 1000000 in
/-- Index-level core of the layout round-trip, checked by evaluation over
every structural type and every supported shape with rows and columns in
1..8 (square for the non-NORMAL types): the source's `size` agrees with the
spec's CompactSize table and with the canonical cell enumeration's length,
and the k-th canonical cell is in range, independently stored, and mapped by
the source's offset formulas to storage slot k exactly. -/
theorem c2_core :
    ∀ t : MatTypeE, ∀ nr < 9, ∀ nc < 9,
      (1 ≤ nr ∧ 1 ≤ nc ∧ (t = NORMAL ∨ nr = nc)) →
      ((size t nr nc = compactSizeSpec t nr nc ∧
        (canonicalCells t nr nc).length = size t nr nc) ∧
       ∀ k < size t nr nc,
         storedIdx t nc ((canonicalCells t nr nc).getD k (0, 0)).1
             ((canonicalCells t nr nc).getD k (0, 0)).2 = some k ∧
         isStored t ((canonicalCells t nr nc).getD k (0, 0)).1
             ((canonicalCells t nr nc).getD k (0, 0)).2 = true ∧
         ((canonicalCells t nr nc).getD k (0, 0)).1 < nr ∧
         ((canonicalCells t nr nc).getD k (0, 0)).2 < nc) := by
  decide

/-- Claim C2: for every structural type and every supported shape (square
1x1 through 8x8, rectangular additionally for NORMAL), the compact size
equals the CompactSize table; and for a matrix constructed from `size()`
values in the type's canonical compact order (buffer = `vals`), reading the
k-th canonical cell through the const accessor returns the k-th value, the
structurally implied-zero cells of the non-mirroring types read 0, SYM
below-diagonal cells read the mirrored upper-triangle value, ASYM
below-diagonal cells read the negated mirror, and ASYM diagonal cells
read 0. -/
theorem layout_size_roundtrip (t : MatTypeE) (nr nc : Nat)
    (h1 : 1 ≤ nr) (h2 : nr ≤ 8) (h3 : 1 ≤ nc) (h4 : nc ≤ 8)
    (h5 : t = NORMAL ∨ nr = nc) (vals : Nat → ℚ) :
    (size t nr nc = compactSizeSpec t nr nc
      ∧ (canonicalCells t nr nc).length = size t nr nc)
    ∧ (∀ k, k < size t nr nc →
        matRead t nr nc vals ((canonicalCells t nr nc).getD k (0, 0)).1
          ((canonicalCells t nr nc).getD k (0, 0)).2 = vals k)
    ∧ (∀ r c, r < nr → c < nc →
        (isStored t r c = false → t ≠ SYM → t ≠ ASYM → matRead t nr nc vals r c = 0)
        ∧ (t = SYM → c < r → matRead t nr nc vals r c = matRead t nr nc vals c r)
        ∧ (t = ASYM → c < r → matRead t nr nc vals r c = - matRead t nr nc vals c r)
        ∧ (t = ASYM → r = c → matRead t nr nc vals r c = 0)) := by
  have hcore := c2_core t nr (by omega) nc (by omega) ⟨h1, h3, h5⟩
  refine ⟨hcore.1, ?_, ?_⟩
  · intro k hk
    obtain ⟨hidx, hst, hok⟩ := hcore.2 k hk
    refine matRead_of_storedIdx t nr nc vals _ _ k hidx ?_
    rintro ⟨hA, hlt⟩
    subst hA
    simp only [isStored, decide_eq_true_eq] at hst
    omega
  · intro r c hr hc
    exact ⟨fun h hs ha => matRead_zero_of_not_stored t nr nc vals r c h hs ha,
      fun hS hlt => by subst hS; exact matRead_sym_mirror nr nc vals r c hlt,
      fun hA hlt => by subst hA; exact matRead_asym_mirror nr nc vals r c hlt,
      fun hA hrc => by subst hA; subst hrc; exact matRead_asym_diag nr nc vals r⟩

/-- Claim C2 witness: the round-trip theorem applied to a 4x4 UPPER matrix
whose buffer holds 0,1,...,9: the compact size is 10 and canonical cell
number 5, the logical cell (1, 2), reads back value 5. -/
theorem layout_size_roundtrip_witness :
    size UPPER 4 4 = 10 ∧ matRead UPPER 4 4 (fun i => (i : ℚ)) 1 2 = 5 := by
  have h := layout_size_roundtrip UPPER 4 4 (by decide) (by decide) (by decide) (by decide)
    (Or.inr rfl) (fun i => (i : ℚ))
  constructor
  · rw [h.1.1]; decide
  · have hcell : (canonicalCells UPPER 4 4).getD 5 (0, 0) = (1, 2) := by decide
    have h5 := h.2.1 5 (by decide)
    rw [hcell] at h5
    simpa using h5

end Flames
